import Mathlib

/-!
Verification of the global-volume Python client
(src/clients/python/client.py) against its specification.

The client is shallowly embedded: asynchronous loops become pure folds
over finite traces of their inputs, JSON wire frames become a structured
value type (the library pair json.dumps / json.loads is modelled as the
identity on that type), and the supervisor loop of main() becomes a
recursive function over a finite trace of connection-attempt outcomes.
-/

namespace GlobalVolume

/-! ## Wire frames (json values) -/

/-- A JSON value as exchanged on the wire.  Objects are association lists
of fields, matching what json.loads produces for the frames this client
inspects. -/
inductive Json where
  | null
  | str (s : String)
  | num (n : Int)
  | obj (fields : List (String × Json))
deriving Repr

/-- Python dict.get with a default: first binding of the key, or the
default when the key is absent. -/
def dictGet (fields : List (String × Json)) (k : String) (dflt : Json) : Json :=
  match fields.lookup k with
  | some v => v
  | none => dflt

/-! ## receiver (client.py lines 118-145) -/

/-- What the receiver does with one decoded inbound frame. -/
inductive ReceiverAction where
  | ignored
  | clientsUpdate (v : Json)
  | discardedInvalidVolume (v : Int)
  | setVolume (v : Int)
  | errored
deriving Repr

/-- One iteration of the receiver loop on a decoded frame.
Mirrors client.py lines 121-145: non-dict frames are skipped; the
"type" field selects the handler; a "volume" frame reads
data.get("volume", 0), range-checks it against [0, 100], and either
warns and discards or invokes set_volume; a non-numeric volume value
makes the range comparison raise, which the generic handler logs. -/
def receiverStep (frame : Json) : ReceiverAction :=
  match frame with
  | Json.obj fields =>
    match dictGet fields "type" Json.null with
    | Json.str t =>
      if t = "clients" then
        ReceiverAction.clientsUpdate (dictGet fields "clients" (Json.num 0))
      else if t = "volume" then
        match dictGet fields "volume" (Json.num 0) with
        | Json.num v =>
          if 0 ≤ v ∧ v ≤ 100 then ReceiverAction.setVolume v
          else ReceiverAction.discardedInvalidVolume v
        | _ => ReceiverAction.errored
      else ReceiverAction.ignored
    | _ => ReceiverAction.ignored
  | _ => ReceiverAction.ignored

/-! ## sender (client.py lines 104-115) -/

/-- The wire frame the sender encodes for one dequeued volume,
client.py line 109. -/
def senderMessage (volume : Int) : Json :=
  Json.obj [("action", Json.str "reqVolumeChange"), ("volume", Json.num volume)]

/-- Reading the volume field out of a decoded frame the way the receiver
does (data.get("volume", 0) on a dict). -/
def frameVolumeField (frame : Json) : Json :=
  match frame with
  | Json.obj fields => dictGet fields "volume" (Json.num 0)
  | _ => Json.num 0

/-! ## volume_watcher (client.py lines 84-101) -/

/-- The polling loop of volume_watcher over a finite trace of read
results (some v = get_volume returned v, none = get_volume raised).
On success it compares with the retained last value and, when
different, enqueues the value and updates the retained value; on
failure it only logs.  Returns the enqueued values in order. -/
def watchLoop (last : Int) : List (Option Int) → List Int
  | [] => []
  | none :: rest => watchLoop last rest
  | some v :: rest =>
    if v ≠ last then v :: watchLoop v rest else watchLoop last rest

/-- A whole run of volume_watcher on a finite trace of read results.
The first element of the trace is the initial get_volume of line 86:
when it fails the function logs and returns at line 89.  Result: the
enqueued values, and whether the watcher terminated early by that
return. -/
def volume_watcherRun : List (Option Int) → List Int × Bool
  | [] => ([], false)
  | none :: _ => ([], true)
  | some v0 :: rest => (watchLoop v0 rest, false)

/-- Modelled from the spec (section 4.2 and section 8): the watcher
emits an intent exactly when a successful poll differs from the last
successfully observed value; a failed poll neither updates the last
observed value nor emits. -/
def specEmittedIntents (lastObserved : Int) : List (Option Int) → List Int
  | [] => []
  | none :: rest => specEmittedIntents lastObserved rest
  | some v :: rest =>
    if v = lastObserved then specEmittedIntents v rest
    else v :: specEmittedIntents v rest

/-! ## main (client.py lines 148-225): the connection supervisor -/

/-- max_retries, client.py line 153. -/
def maxRetries : Nat := 5

/-- The backoff computed at client.py lines 158-161: no sleep before
the first attempt, otherwise min(10 * (attempts - 1), 30) seconds. -/
def wait_time (attempts : Nat) : Nat :=
  if attempts > 1 then min (10 * (attempts - 1)) 30 else 0

/-- How an established session ends (the exception escaping the
async-with block, handled by the same handlers as connect failures). -/
inductive SessionTerm where
  | closed
  | errored
  | interrupted
deriving DecidableEq, Repr

/-- The outcome of one connection attempt, the distinguishable causes
handled at client.py lines 190-222. -/
inductive ConnectResult where
  | invalidURI
  | rejected (status : Option Nat)
  | closed
  | interrupted
  | errored
  | established (term : SessionTerm)
deriving DecidableEq, Repr

/-- What one loop iteration decides: exit the process with a code, or
fall through to the next iteration carrying the attempt counter. -/
inductive StepResult where
  | exit (code : Nat)
  | retry (attempts : Nat)
deriving DecidableEq, Repr

/-- One iteration of the while loop of main, given the counter value at
the top of the iteration (before the increment of line 156) and the
attempt outcome.  InvalidURI exits immediately (line 192); a status
rejection, 503 or otherwise, and a closed or failed connection exit
only once the incremented counter reaches max_retries (lines 193-222);
a successful connection resets the counter to 0 (line 167) before its
session terminates, so the post-session handlers check the reset
counter. -/
def superviseStep (attempts : Nat) (r : ConnectResult) : StepResult :=
  let a := attempts + 1
  match r with
  | ConnectResult.invalidURI => StepResult.exit 1
  | ConnectResult.rejected status =>
    if status = some 503 then
      if a ≥ maxRetries then StepResult.exit 1 else StepResult.retry a
    else
      if a ≥ maxRetries then StepResult.exit 1 else StepResult.retry a
  | ConnectResult.closed =>
    if a ≥ maxRetries then StepResult.exit 1 else StepResult.retry a
  | ConnectResult.interrupted => StepResult.exit 0
  | ConnectResult.errored =>
    if a ≥ maxRetries then StepResult.exit 1 else StepResult.retry a
  | ConnectResult.established term =>
    match term with
    | SessionTerm.closed =>
      if 0 ≥ maxRetries then StepResult.exit 1 else StepResult.retry 0
    | SessionTerm.errored =>
      if 0 ≥ maxRetries then StepResult.exit 1 else StepResult.retry 0
    | SessionTerm.interrupted => StepResult.exit 0

/-- Outcome of running the supervisor on a finite trace: the process
exited with a code, or the trace ran out with the loop still going. -/
inductive RunOutcome where
  | exited (code : Nat)
  | running (attempts : Nat)
deriving DecidableEq, Repr

/-- A supervisor run together with its resource trace:
spawns lists, in order, one identifier per outbound queue and watcher
task created at client.py lines 183-184 (one fresh pair on every
successful connection). -/
structure RunResult where
  outcome : RunOutcome
  spawns : List Nat
deriving DecidableEq, Repr

/-- The while loop of main (client.py lines 155-225) over a finite
trace of attempt outcomes.  idx numbers the queue/watcher pairs already
created.  When the trace is exhausted with the condition still true the
loop is still running; when the condition fails the fall-through of
line 225 exits with 1. -/
def superviseRun (attempts idx : Nat) : List ConnectResult → RunResult
  | [] =>
    if attempts < maxRetries then ⟨RunOutcome.running attempts, []⟩
    else ⟨RunOutcome.exited 1, []⟩
  | r :: rs =>
    if attempts < maxRetries then
      let spawnedHere : List Nat :=
        match r with
        | ConnectResult.established _ => [idx]
        | _ => []
      let idxNext : Nat :=
        match r with
        | ConnectResult.established _ => idx + 1
        | _ => idx
      match superviseStep attempts r with
      | StepResult.exit c => ⟨RunOutcome.exited c, spawnedHere⟩
      | StepResult.retry a =>
        let rest := superviseRun a idxNext rs
        ⟨rest.outcome, spawnedHere ++ rest.spawns⟩
    else ⟨RunOutcome.exited 1, []⟩

/-! ## Theorems -/

/-- Helper: one loop iteration for a successful connection whose
session ends with a transport close — the counter resets to 0, one
fresh queue/watcher pair is created, and the loop goes on. -/
theorem superviseRun_established_closed (idx : Nat) (rs : List ConnectResult) :
    superviseRun 0 idx (ConnectResult.established SessionTerm.closed :: rs)
      = ⟨(superviseRun 0 (idx + 1) rs).outcome,
          idx :: (superviseRun 0 (idx + 1) rs).spawns⟩ := rfl

/-- C1 counterexample: the claim that an HTTP 4xx rejection (other
than 503) exits fatally regardless of remaining budget is false.  With
the full budget left, a 404 rejection leaves the supervisor retrying
(counter 1), not exited. -/
theorem c1_nonretryable_counterexample :
    superviseRun 0 0 [ConnectResult.rejected (some 404)]
      = ⟨RunOutcome.running 1, []⟩ ∧
    RunOutcome.running 1 ≠ RunOutcome.exited 1 :=
  ⟨rfl, by decide⟩

/-- C1 amended: a malformed server URL exits the process with status 1
immediately, regardless of budget; an HTTP status rejection — any
status, 4xx included — consumes one attempt and is retried while
budget remains, exiting with status 1 only once the incremented
counter reaches max_retries. -/
theorem c1_invalidURI_fatal_http_rejection_retryable
    (attempts idx s : Nat) (rs : List ConnectResult)
    (h : attempts < maxRetries) :
    (superviseRun attempts idx (ConnectResult.invalidURI :: rs)).outcome
      = RunOutcome.exited 1 ∧
    (attempts + 1 < maxRetries →
      superviseRun attempts idx (ConnectResult.rejected (some s) :: rs)
        = superviseRun (attempts + 1) idx rs) ∧
    (maxRetries ≤ attempts + 1 →
      (superviseRun attempts idx (ConnectResult.rejected (some s) :: rs)).outcome
        = RunOutcome.exited 1) := by
  refine ⟨?_, ?_, ?_⟩
  · simp [superviseRun, superviseStep, h]
  · intro hb
    by_cases hs : (some s : Option Nat) = some 503 <;>
      simp [superviseRun, superviseStep, h, hs, Nat.not_le.mpr hb]
  · intro hb
    by_cases hs : (some s : Option Nat) = some 503 <;>
      simp [superviseRun, superviseStep, h, hs, hb]

/-- Witness for the amended C1: invalid URL exits at once; a 404 with
budget left is retried; a 404 on the last attempt exits with 1. -/
theorem c1_amended_witness :
    (superviseRun 0 0 [ConnectResult.invalidURI]).outcome
      = RunOutcome.exited 1 ∧
    superviseRun 0 0 [ConnectResult.rejected (some 404)]
      = superviseRun 1 0 [] ∧
    (superviseRun 4 0 [ConnectResult.rejected (some 404)]).outcome
      = RunOutcome.exited 1 :=
  ⟨(c1_invalidURI_fatal_http_rejection_retryable 0 0 404 [] (by decide)).1,
   (c1_invalidURI_fatal_http_rejection_retryable 0 0 404 [] (by decide)).2.1
     (by decide),
   (c1_invalidURI_fatal_http_rejection_retryable 4 0 404 [] (by decide)).2.2
     (by decide)⟩

/-- C2 counterexample: the claim that successful connects each followed
by a terminal transport error reach the fatal exit after exactly 5
consumed failures is false — after 5 such cycles the supervisor is
still running with the counter reset to 0. -/
theorem c2_success_reset_counterexample :
    (superviseRun 0 0 (List.replicate 5
        (ConnectResult.established SessionTerm.closed))).outcome
      = RunOutcome.running 0 ∧
    RunOutcome.running 0 ≠ RunOutcome.exited 1 :=
  ⟨rfl, by decide⟩

/-- C2 amended: because the counter resets to 0 on every successful
connection, a run of successful connects each followed by a terminal
transport error never reaches the fatal exit — the supervisor keeps
retrying with the counter at 0; only max_retries consecutive failed
connection attempts (no intervening success) produce the fatal exit. -/
theorem c2_reset_on_success_prevents_fatal (idx : Nat)
    (rs : List ConnectResult)
    (h : ∀ r ∈ rs, r = ConnectResult.established SessionTerm.closed) :
    (superviseRun 0 idx rs).outcome = RunOutcome.running 0 ∧
    (superviseRun 0 0 (List.replicate maxRetries ConnectResult.closed)).outcome
      = RunOutcome.exited 1 := by
  refine ⟨?_, by decide⟩
  revert h
  induction rs generalizing idx with
  | nil =>
    intro h
    rfl
  | cons r rest ih =>
    intro h
    have hr : r = ConnectResult.established SessionTerm.closed :=
      h r (List.mem_cons_self r rest)
    subst hr
    rw [superviseRun_established_closed]
    exact ih (idx + 1) (fun x hx => h x (List.mem_cons_of_mem _ hx))

/-- Witness for the amended C2: two success-then-close cycles leave the
supervisor running at counter 0, while 5 straight connect failures exit
with status 1. -/
theorem c2_reset_on_success_witness :
    (superviseRun 0 0 [ConnectResult.established SessionTerm.closed,
        ConnectResult.established SessionTerm.closed]).outcome
      = RunOutcome.running 0 ∧
    (superviseRun 0 0 (List.replicate maxRetries ConnectResult.closed)).outcome
      = RunOutcome.exited 1 :=
  c2_reset_on_success_prevents_fatal 0
    [ConnectResult.established SessionTerm.closed,
     ConnectResult.established SessionTerm.closed] (by decide)

/-- C3 counterexample: the claim that the watcher is started exactly
once per process with one queue persisting across reconnects is false —
a run with two successful connections creates two watcher tasks with
two distinct queues. -/
theorem c3_singleton_watcher_counterexample :
    (superviseRun 0 0 [ConnectResult.established SessionTerm.closed,
        ConnectResult.established SessionTerm.closed]).spawns = [0, 1] ∧
    ¬ (superviseRun 0 0 [ConnectResult.established SessionTerm.closed,
        ConnectResult.established SessionTerm.closed]).spawns.length ≤ 1 :=
  ⟨rfl, by decide⟩

/-- C3 amended: a fresh outbound queue and a fresh watcher task are
created on every successful connection — one pair per reconnect, all
distinct, none cancelled — so the queue does not persist across
reconnected sessions. -/
theorem c3_fresh_watcher_and_queue_per_connection (idx : Nat)
    (rs : List ConnectResult)
    (h : ∀ r ∈ rs, r = ConnectResult.established SessionTerm.closed) :
    (superviseRun 0 idx rs).spawns = List.range' idx rs.length ∧
    (superviseRun 0 idx rs).spawns.length = rs.length := by
  have key : (superviseRun 0 idx rs).spawns = List.range' idx rs.length := by
    revert h
    induction rs generalizing idx with
    | nil =>
      intro h
      rfl
    | cons r rest ih =>
      intro h
      have hr : r = ConnectResult.established SessionTerm.closed :=
        h r (List.mem_cons_self r rest)
      subst hr
      rw [superviseRun_established_closed]
      show idx :: (superviseRun 0 (idx + 1) rest).spawns = _
      rw [ih (idx + 1) (fun x hx => h x (List.mem_cons_of_mem _ hx))]
      rfl
  refine ⟨key, ?_⟩
  rw [key, List.length_range']

/-- Witness for the amended C3: two reconnects give queue/watcher pairs
0 and 1 — two of them, distinct. -/
theorem c3_fresh_watcher_witness :
    (superviseRun 0 0 [ConnectResult.established SessionTerm.closed,
        ConnectResult.established SessionTerm.closed]).spawns
      = List.range' 0 2 ∧
    (superviseRun 0 0 [ConnectResult.established SessionTerm.closed,
        ConnectResult.established SessionTerm.closed]).spawns.length = 2 := by
  have h := c3_fresh_watcher_and_queue_per_connection 0
    [ConnectResult.established SessionTerm.closed,
     ConnectResult.established SessionTerm.closed] (by decide)
  exact ⟨h.1, h.2⟩

/-- C4 counterexample: the claim that no read failure ever terminates
the watcher is false.  On the trace [failure, 30, 45] the initial read
fails, the watcher returns at once (terminated flag true), and the
later differing reads emit nothing. -/
theorem c4_first_read_failure_counterexample :
    (volume_watcherRun [none, some 30, some 45]).2 = true ∧
    (volume_watcherRun [none, some 30, some 45]).1 = [] ∧
    ¬ (volume_watcherRun [none, some 30, some 45]).2 = false :=
  ⟨rfl, rfl, by decide⟩

/-- C4 amended: a read failure inside the polling loop never
terminates the watcher, never updates the last observed value, and a
later differing successful read still emits; but a failure of the very
first (initial) read terminates the watcher immediately with nothing
emitted. -/
theorem c4_loop_failures_tolerated_initial_failure_fatal
    (last v : Int) (rest : List (Option Int)) (h : v ≠ last) :
    volume_watcherRun (none :: rest) = ([], true) ∧
    (volume_watcherRun (some last :: none :: rest)).2 = false ∧
    watchLoop last (none :: some v :: rest) = v :: watchLoop v rest := by
  refine ⟨rfl, rfl, ?_⟩
  show watchLoop last (some v :: rest) = _
  simp only [watchLoop]
  rw [if_pos h]

/-- Witness for the amended C4 at last = 30, v = 45. -/
theorem c4_loop_failures_tolerated_witness :
    volume_watcherRun [none] = ([], true) ∧
    (volume_watcherRun [some 30, none]).2 = false ∧
    watchLoop 30 [none, some 45] = 45 :: watchLoop 45 [] :=
  c4_loop_failures_tolerated_initial_failure_fatal 30 45 [] (by decide)

/-- C5 counterexample: the claim that an out-of-range local read is
never enqueued or transmitted is false.  A local read of 150 after 30
is enqueued unchanged, and the sender frame for it carries volume
field 150, which exceeds 100. -/
theorem c5_out_of_range_transmitted_counterexample :
    volume_watcherRun [some 30, some 150] = ([150], false) ∧
    frameVolumeField (senderMessage 150) = Json.num 150 ∧
    ¬ ((150 : Int) ≤ 100) :=
  ⟨rfl, rfl, by decide⟩

/-- C5 amended: values obtained from the local volume read are not
range-validated by the watcher or the sender: any changed value,
in range or not, is enqueued and transmitted unchanged (neither
clamped nor rejected); only inbound volume events are range-checked. -/
theorem c5_no_local_range_validation (last v : Int) (h : v ≠ last) :
    watchLoop last [some v] = [v] ∧
    frameVolumeField (senderMessage v) = Json.num v := by
  constructor
  · simp only [watchLoop]
    rw [if_pos h]
  · rfl

/-- Witness for the amended C5 at last = 30, v = 150. -/
theorem c5_no_local_range_validation_witness :
    watchLoop 30 [some 150] = [150] ∧
    frameVolumeField (senderMessage 150) = Json.num 150 :=
  c5_no_local_range_validation 30 150 (by decide)

/-- C6: for every retry number n ≥ 2, the delay the supervisor waits
before the n-th connection attempt equals min(10*(n-1), 30) seconds,
and the first attempt is made immediately with no delay. -/
theorem c6_backoff_formula (n : Nat) (h : 2 ≤ n) :
    wait_time n = min (10 * (n - 1)) 30 ∧ wait_time 1 = 0 := by
  constructor
  · unfold wait_time
    rw [if_pos (by omega)]
  · rfl

/-- Witness for C6 at n = 4. -/
theorem c6_backoff_formula_witness :
    wait_time 4 = min (10 * (4 - 1)) 30 ∧ wait_time 1 = 0 :=
  c6_backoff_formula 4 (by decide)

/-- C7: the watcher enqueues an intent if and only if a successful poll
differs from the last successfully observed value; repeated identical
reads emit nothing and a failed poll neither updates the last observed
value nor emits.  Stated as equality of the code loop with the emitter
written from the words of the spec. -/
theorem c7_emission_iff_changed (last : Int) (reads : List (Option Int)) :
    watchLoop last reads = specEmittedIntents last reads := by
  induction reads generalizing last with
  | nil => rfl
  | cons r rest ih =>
    cases r with
    | none => simpa only [watchLoop, specEmittedIntents] using ih last
    | some v =>
      by_cases hv : v = last
      · subst hv
        simp [watchLoop, specEmittedIntents, ih]
      · simp [watchLoop, specEmittedIntents, hv, ih]

/-- C8: an inbound volume event carrying a value outside [0,100] is
discarded with a warning and set_volume is never invoked for it. -/
theorem c8_invalid_inbound_volume_discarded (v : Int) (h : v < 0 ∨ 100 < v) :
    receiverStep (Json.obj [("type", Json.str "volume"), ("volume", Json.num v)])
      = ReceiverAction.discardedInvalidVolume v ∧
    ∀ w : Int,
      ReceiverAction.discardedInvalidVolume v ≠ ReceiverAction.setVolume w := by
  constructor
  · show (if 0 ≤ v ∧ v ≤ 100 then ReceiverAction.setVolume v
        else ReceiverAction.discardedInvalidVolume v) = _
    rw [if_neg (by omega)]
  · intro w hEq
    exact ReceiverAction.noConfusion hEq

/-- Witness for C8 at v = 150. -/
theorem c8_invalid_inbound_volume_discarded_witness :
    receiverStep (Json.obj [("type", Json.str "volume"), ("volume", Json.num 150)])
      = ReceiverAction.discardedInvalidVolume 150 ∧
    ∀ w : Int,
      ReceiverAction.discardedInvalidVolume 150 ≠ ReceiverAction.setVolume w :=
  c8_invalid_inbound_volume_discarded 150 (by decide)

/-- C9: for every integer v in [0,100], encoding a volume-change
message carrying v and then decoding that frame yields exactly v as the
volume field, and the receiver applies exactly v from a volume event
carrying v. -/
theorem c9_codec_roundtrip (v : Int) (h0 : 0 ≤ v) (h1 : v ≤ 100) :
    frameVolumeField (senderMessage v) = Json.num v ∧
    receiverStep (Json.obj [("type", Json.str "volume"), ("volume", Json.num v)])
      = ReceiverAction.setVolume v := by
  constructor
  · rfl
  · show (if 0 ≤ v ∧ v ≤ 100 then ReceiverAction.setVolume v
        else ReceiverAction.discardedInvalidVolume v) = _
    rw [if_pos ⟨h0, h1⟩]

/-- Witness for C9 at v = 42. -/
theorem c9_codec_roundtrip_witness :
    frameVolumeField (senderMessage 42) = Json.num 42 ∧
    receiverStep (Json.obj [("type", Json.str "volume"), ("volume", Json.num 42)])
      = ReceiverAction.setVolume 42 :=
  c9_codec_roundtrip 42 (by decide) (by decide)

/-- C10: an inbound volume frame with no volume field defaults to 0,
which passes validation, and the backend write is invoked with 0. -/
theorem c10_missing_volume_defaults_to_zero :
    receiverStep (Json.obj [("type", Json.str "volume")])
      = ReceiverAction.setVolume 0 := rfl

end GlobalVolume
